import Mathlib

/-!
Verification of the SVS inference pipeline (`SVS/model/infer.py`).

The development shallowly embeds the control flow and numeric bookkeeping of
the `infer` function: model-type dispatch, checkpoint filtering and strict
weight loading, loss-criterion selection, the per-batch inference loop with
its running accumulators, and the final aggregation report.

External collaborators that are not part of the translated file (the neural
network modules, `MaskedLoss`, the metrics engine, `AverageMeter`,
`GlobalMVN`) are represented either by oracle function parameters (when only
their call sites matter) or by definitions modelled from the design
specification (when a claim is about their contract).  Numeric values use
`ℚ`; the single square root of the final report uses `ℝ`.
-/

namespace SVSInfer

/-- A spectrogram frame: one time step of per-feature-dimension values. -/
abbrev Frame : Type := List ℚ

/-- A tensor shape, as compared by `Tensor.size()` in the checkpoint loader. -/
abbrev Shape : Type := List ℕ

/-- Errors that abort the `infer` run, mirroring the Python exception kinds
raised by the translated code paths (`ValueError`, `KeyError`,
`RuntimeError`, and `NameError` / `UnboundLocalError`). -/
inductive InferError where
  | valueError : String → InferError
  | keyError : String → InferError
  | runtimeError : String → InferError
  | nameError : String → InferError
deriving DecidableEq, Repr

/-- Modelled from the spec: the Running Metrics Accumulator (`AverageMeter`
from `SVS.model.utils.utils`, not under `src/`) "holds (sum, count) per
metric"; its average is the "weighted sum divided by total weight". -/
structure AverageMeter where
  sum : ℚ
  count : ℚ
deriving DecidableEq, Repr

/-- A fresh accumulator with zero sum and zero count. -/
def AverageMeter.empty : AverageMeter := ⟨0, 0⟩

/-- Modelled from the spec: `update(val, n)` adds `val` with weight `n`
(weighted sum and total weight). -/
def AverageMeter.update (m : AverageMeter) (val n : ℚ) : AverageMeter :=
  ⟨m.sum + val * n, m.count + n⟩

/-- The running average read at report time: weighted sum over total weight. -/
def AverageMeter.avg (m : AverageMeter) : ℚ := m.sum / m.count

/-- Fold a list of (value, weight) updates into an accumulator. -/
def AverageMeter.updates (m : AverageMeter) (l : List (ℚ × ℚ)) : AverageMeter :=
  l.foldl (fun a p => a.update p.1 p.2) m

/-- The weighted mean of a list of (value, weight) pairs. -/
def weightedMean (l : List (ℚ × ℚ)) : ℚ :=
  (l.map fun p => p.1 * p.2).sum / (l.map Prod.snd).sum

theorem AverageMeter.updates_nil (m : AverageMeter) : m.updates [] = m := rfl

theorem AverageMeter.updates_cons (m : AverageMeter) (p : ℚ × ℚ) (l : List (ℚ × ℚ)) :
    m.updates (p :: l) = (m.update p.1 p.2).updates l := rfl

theorem AverageMeter.updates_append (m : AverageMeter) (l₁ l₂ : List (ℚ × ℚ)) :
    m.updates (l₁ ++ l₂) = (m.updates l₁).updates l₂ :=
  List.foldl_append _ _ _ _

theorem AverageMeter.updates_closed (m : AverageMeter) (l : List (ℚ × ℚ)) :
    m.updates l = ⟨m.sum + (l.map fun p => p.1 * p.2).sum, m.count + (l.map Prod.snd).sum⟩ := by
  induction l generalizing m with
  | nil => simp [AverageMeter.updates]
  | cons p l ih =>
      rw [AverageMeter.updates_cons, ih]
      simp [AverageMeter.update]
      constructor <;> ring

theorem AverageMeter.avg_updates_empty (l : List (ℚ × ℚ)) :
    (AverageMeter.empty.updates l).avg = weightedMean l := by
  rw [AverageMeter.updates_closed]
  simp [AverageMeter.avg, AverageMeter.empty, weightedMean]

/-- Modelled from the spec: the `GlobalMVN` normalizer
(`SVS.model.layers.global_mvn`, not under `src/`) "holds a per-feature-
dimension mean and standard deviation, loaded from a persisted statistics
file".  The statistics-file contents are carried directly as the two lists. -/
structure GlobalMVN where
  mean : List ℚ
  std : List ℚ
deriving DecidableEq, Repr

/-- Per-frame affine normalization: `(x - mean) / std`, per feature dimension. -/
def GlobalMVN.normFrame (g : GlobalMVN) (f : Frame) : Frame :=
  List.zipWith (fun v ms => (v - ms.1) / ms.2) f (g.mean.zip g.std)

/-- Per-frame inverse affine transform: `x * std + mean`, per feature dimension. -/
def GlobalMVN.invFrame (g : GlobalMVN) (f : Frame) : Frame :=
  List.zipWith (fun v ms => v * ms.2 + ms.1) f (g.mean.zip g.std)

/-- Modelled from the spec: `normalize(x, lengths)` returns `(x - mean) / std`
"applied only over valid (unpadded) frames per the length mask"; the first
`len` frames are valid, later (padding) frames pass through unchanged. -/
def GlobalMVN.normalize (g : GlobalMVN) : ℕ → List Frame → List Frame
  | _, [] => []
  | 0, f :: fs => f :: fs
  | n + 1, f :: fs => g.normFrame f :: g.normalize n fs

/-- Modelled from the spec: `inverse(x, lengths)` performs the reverse affine
transform over the valid frames. -/
def GlobalMVN.inverse (g : GlobalMVN) : ℕ → List Frame → List Frame
  | _, [] => []
  | 0, f :: fs => f :: fs
  | n + 1, f :: fs => g.invFrame f :: g.inverse n fs

theorem zipWith_inv_zipWith_norm (z : List (ℚ × ℚ)) (f : List ℚ)
    (hlen : f.length ≤ z.length) (hz : ∀ p ∈ z, p.2 ≠ 0) :
    List.zipWith (fun v ms => v * ms.2 + ms.1)
      (List.zipWith (fun v ms => (v - ms.1) / ms.2) f z) z = f := by
  induction f generalizing z with
  | nil => simp
  | cons a f ih =>
      cases z with
      | nil => simp at hlen
      | cons p z =>
          simp only [List.zipWith]
          have hp : p.2 ≠ 0 := hz p (List.mem_cons_self p z)
          have : (a - p.1) / p.2 * p.2 + p.1 = a := by
            field_simp
          rw [this, ih z (by simpa using hlen) (fun q hq => hz q (List.mem_cons_of_mem p hq))]

theorem GlobalMVN.invFrame_normFrame (g : GlobalMVN) (f : Frame)
    (hs : ∀ s ∈ g.std, s ≠ 0) (hlen : f.length ≤ (g.mean.zip g.std).length) :
    g.invFrame (g.normFrame f) = f := by
  unfold GlobalMVN.invFrame GlobalMVN.normFrame
  exact zipWith_inv_zipWith_norm _ f hlen
    (fun p hp => hs p.2 (List.of_mem_zip hp).2)

/-- Claim C5: the GlobalMVN round trip.  For every input `x` and every valid
lengths mask, `inverse(normalize(x, lengths), lengths) = x` (exactly, over
`ℚ`), provided the statistics are well-formed: every per-dimension standard
deviation is nonzero, and every frame has no more feature dimensions than the
statistics vectors. -/
theorem GlobalMVN.inverse_normalize (g : GlobalMVN) (len : ℕ) (x : List Frame)
    (hs : ∀ s ∈ g.std, s ≠ 0)
    (hlen : ∀ f ∈ x, f.length ≤ (g.mean.zip g.std).length) :
    g.inverse len (g.normalize len x) = x := by
  induction x generalizing len with
  | nil => cases len <;> rfl
  | cons f fs ih =>
      cases len with
      | zero => rfl
      | succ n =>
          simp only [GlobalMVN.normalize, GlobalMVN.inverse]
          rw [GlobalMVN.invFrame_normFrame g f hs (hlen f (List.mem_cons_self f fs)),
            ih n (fun q hq => hlen q (List.mem_cons_of_mem f hq))]

/-- Claim C5 witness: the round trip at a concrete normalizer and input. -/
theorem GlobalMVN.inverse_normalize_witness :
    ((∀ s ∈ (GlobalMVN.mk [1, 2] [2, 4]).std, s ≠ 0) ∧
      (∀ f ∈ [[3, 5], [7, 9], [11, 13]], List.length f ≤
        (((GlobalMVN.mk [1, 2] [2, 4]).mean.zip (GlobalMVN.mk [1, 2] [2, 4]).std)).length)) ∧
    (GlobalMVN.mk [1, 2] [2, 4]).inverse 2
      ((GlobalMVN.mk [1, 2] [2, 4]).normalize 2 [[3, 5], [7, 9], [11, 13]]) =
      [[3, 5], [7, 9], [11, 13]] :=
  ⟨⟨by decide, by decide⟩,
    GlobalMVN.inverse_normalize (GlobalMVN.mk [1, 2] [2, 4]) 2 [[3, 5], [7, 9], [11, 13]]
      (by decide) (by decide)⟩

/-- The model architectures that `infer` can actually construct.  The import
line of `infer.py` binds only `GLU_TransformerSVS`, `TransformerSVS`,
`LSTMSVS` and `ConformerSVS`; there is no variant for `GRU_gs` because the
name `GRUSVS_gs` used by that branch is never imported or defined in the
module. -/
inductive ModelArch where
  | gluTransformer
  | lstm
  | pureTransformer
  | conformer
deriving DecidableEq, Repr

/-- The loss criterion object constructed by `MaskedLoss(loss_type)`; the
masked-loss computation itself lives in `SVS.model.utils.loss` and is
represented at its call sites by the loss oracle. -/
structure MaskedLoss where
  lossType : String
deriving DecidableEq, Repr

/-- The model-construction dispatch of `infer` (lines 33–114).  Each of the
four imported architectures is constructed; the `GRU_gs` branch evaluates the
undefined name `GRUSVS_gs` and therefore raises a `NameError`; any other tag
raises `ValueError("Not Support Model Type %s" % args.model_type)`. -/
def prepareModel (modelType : String) : Except InferError ModelArch :=
  if modelType = "GLU_Transformer" then .ok .gluTransformer
  else if modelType = "LSTM" then .ok .lstm
  else if modelType = "GRU_gs" then
    .error (.nameError "GRUSVS_gs")
  else if modelType = "PureTransformer" then .ok .pureTransformer
  else if modelType = "Conformer" then .ok .conformer
  else .error (.valueError ("Not Support Model Type " ++ modelType))

/-- The loss-criterion dispatch of `infer` (lines 173–178). -/
def criterionOf (loss : String) : Except InferError MaskedLoss :=
  if loss = "l1" then .ok ⟨"l1"⟩
  else if loss = "mse" then .ok ⟨"mse"⟩
  else .error (.valueError "Not Support Loss Type")

/-- The four reserved normalizer-statistic keys skipped by the checkpoint
loop (line 128). -/
def isNormalizerKey (k : String) : Bool :=
  k = "normalizer.mean" || k = "normalizer.std" ||
    k = "mel_normalizer.mean" || k = "mel_normalizer.std"

/-- The checkpoint filtering loop of `infer` (lines 123–134): iterate over
`state_dict` in order; skip the reserved normalizer keys; for every other
entry look up `model_dict[k]` (an unguarded subscript — a missing key raises
`KeyError`); entries whose size matches are kept in `state_dict_new`, the
rest are appended to `para_list`. -/
def filterStateDict (modelDict : List (String × Shape)) :
    List (String × Shape) → Except InferError (List (String × Shape) × List String)
  | [] => .ok ([], [])
  | (k, v) :: rest =>
      if isNormalizerKey k then filterStateDict modelDict rest
      else
        match modelDict.lookup k with
        | none => .error (.keyError k)
        | some sz => do
            let (sdNew, paraList) ← filterStateDict modelDict rest
            if sz = v then .ok ((k, v) :: sdNew, paraList)
            else .ok (sdNew, k :: paraList)

/-- PyTorch `Module.load_state_dict` with the default `strict=True` (as
called on line 142): it raises a `RuntimeError` whenever the provided
state dict is missing any of the model's parameter keys or contains keys the
model does not have.  (Size mismatches of present keys cannot occur here:
`filterStateDict` only keeps size-matching entries.) -/
def loadStateDictStrict (modelDict sd : List (String × Shape)) :
    Except InferError Unit :=
  let missing := (modelDict.map Prod.fst).filter fun k => (sd.lookup k).isNone
  let unexpected := (sd.map Prod.fst).filter fun k => (modelDict.lookup k).isNone
  if missing.isEmpty && unexpected.isEmpty then .ok ()
  else .error (.runtimeError
    ("Error(s) in loading state_dict: Missing key(s): " ++
      String.intercalate ", " missing ++ "; Unexpected key(s): " ++
      String.intercalate ", " unexpected))

/-- What the checkpoint-loading stage reports on success (the counts and the
skipped names printed on lines 136–139). -/
structure CheckpointReport where
  total : ℕ
  loaded : ℕ
  skipped : List String
deriving DecidableEq, Repr

/-- The whole checkpoint-loading stage of `infer` (lines 118–143), given the
live model's parameter table `modelDict` and the checkpoint's `state_dict`:
filter, report counts and skipped names, then `model.load_state_dict`
(strict) on the filtered dict. -/
def loadCheckpoint (modelDict stateDict : List (String × Shape)) :
    Except InferError CheckpointReport := do
  let (sdNew, paraList) ← filterStateDict modelDict stateDict
  loadStateDictStrict modelDict sdNew
  .ok ⟨stateDict.length, sdNew.length, paraList⟩

/-- Claim C2 failing input: the `GRU_gs` branch does not return a constructed
model; it raises a `NameError` because `GRUSVS_gs` is not among the imports
of `infer.py`. -/
theorem prepareModel_gru_gs_nameError :
    prepareModel "GRU_gs" = .error (.nameError "GRUSVS_gs") := by rfl

/-- Claim C1 failing input: a checkpoint whose parameter names all exist in
the live model and in which exactly one tensor (`dec.w`) has a mismatched
shape.  The loop does skip and record that parameter, but the subsequent
strict `model.load_state_dict(state_dict_new)` then aborts the run with a
`RuntimeError` about the missing key — the load does not continue
best-effort as the claim states. -/
theorem loadCheckpoint_shape_mismatch_aborts :
    loadCheckpoint [("enc.w", [4, 3]), ("dec.w", [3])]
        [("enc.w", [4, 3]), ("dec.w", [5])] =
      .error (.runtimeError
        ("Error(s) in loading state_dict: Missing key(s): " ++
          "dec.w; Unexpected key(s): ")) := by rfl

/-- Claim C10: for every checkpoint entry whose key is not one of the four
reserved normalizer-statistic names and is not a parameter name of the live
model, the loading loop's unguarded `model_dict[k]` lookup raises a
`KeyError` for that key, aborting the run instead of skipping the entry. -/
theorem filterStateDict_unknown_key_keyError (modelDict : List (String × Shape))
    (k : String) (v : Shape) (rest : List (String × Shape))
    (hk : isNormalizerKey k = false) (hm : modelDict.lookup k = none) :
    filterStateDict modelDict ((k, v) :: rest) = .error (.keyError k) := by
  simp [filterStateDict, hk, hm]

/-- Claim C10 witness: a concrete checkpoint with a stray key aborts with
`KeyError`. -/
theorem filterStateDict_unknown_key_keyError_witness :
    (isNormalizerKey "extra.bias" = false ∧
      List.lookup "extra.bias" [("enc.w", ([4, 3] : Shape))] = none) ∧
    filterStateDict [("enc.w", [4, 3])] [("extra.bias", [7]), ("enc.w", [4, 3])] =
      .error (.keyError "extra.bias") :=
  ⟨⟨by decide, by decide⟩,
    filterStateDict_unknown_key_keyError [("enc.w", [4, 3])] "extra.bias" [7]
      [("enc.w", [4, 3])] (by decide) (by decide)⟩

/-- Claim C7: the running metric accumulators are associative weighted
averages.  Processing the updates of batch groups `[A, B]` and then `[C]`
yields the same accumulator as processing `[A, B, C]` in one pass, and the
resulting average is exactly the weighted sum divided by the total weight. -/
theorem AverageMeter.update_batches_assoc (A B C : List (ℚ × ℚ)) :
    ((AverageMeter.empty.updates (A ++ B)).updates C =
      AverageMeter.empty.updates (A ++ B ++ C)) ∧
    (AverageMeter.empty.updates (A ++ B ++ C)).avg = weightedMean (A ++ B ++ C) :=
  ⟨(AverageMeter.updates_append _ _ _).symm, AverageMeter.avg_updates_empty _⟩

/-- The configuration options of `infer` that steer the translated control
flow.  `specStats` / `melStats` carry the contents of the two statistics
files read by `GlobalMVN(args.stats_file)` / `GlobalMVN(args.stats_mel_file)`
(the files themselves are external).  Architecture hyperparameters that are
only forwarded to the external network constructors are omitted. -/
structure Args where
  model_type : String
  loss : String
  n_mels : ℕ
  normalize : Bool
  stats_file : String
  stats_mel_file : String
  double_mel_loss : Bool
  perceptual_loss : ℚ
  specStats : GlobalMVN
  melStats : GlobalMVN

/-- One collated batch as yielded by the test loader: the batch size
(`phone.size(0)`), the target linear spectrogram and mel spectrogram, and the
number of valid (unpadded) frames from which the length masks are built. -/
structure Batch where
  batchSize : ℚ
  spec : List Frame
  mel : List Frame
  length : ℕ

/-- The tuple returned by `Metrics.Calculate_f0RMSE_VUV_CORR_fromWav`:
per-batch F0 distortion with its voiced-frame weight, VUV error with its
total-frame weight, and the two per-batch F0 arrays. -/
structure F0Out where
  dist : ℚ
  voiced : ℚ
  vuv : ℚ
  frames : ℚ
  gt : List ℚ
  syn : List ℚ

/-- The external collaborators called by the loop, kept opaque: the
constructed network's parameter table and forward passes, the `MaskedLoss`
computation, the two metric computations of `SVS.tools.metrics`, and
`Metrics.compute_f0_corr`. -/
structure Oracles where
  modelDict : ModelArch → List (String × Shape)
  fwd : Batch → List Frame
  fwdMel : Batch → List Frame
  loss : MaskedLoss → List Frame → List Frame → ℕ → ℚ
  melcd : List Frame → List Frame → ℕ → ℚ × ℚ
  f0metrics : List Frame → List Frame → ℕ → F0Out
  pearson : List ℚ → List ℚ → ℚ

/-- The local accumulator variables of `infer`.  A meter that lines 180–189
only create under a guard is an `Option`: `none` models a local variable that
was never assigned. -/
structure LoopState where
  losses : AverageMeter
  specLosses : AverageMeter
  peLosses : Option AverageMeter
  melLosses : Option AverageMeter
  doubleMelLosses : Option AverageMeter
  mcdMetric : Option AverageMeter
  f0Metric : Option AverageMeter
  vuvMetric : Option AverageMeter
  f0GtAll : List ℚ
  f0SynAll : List ℚ

/-- Reading a conditionally-created local meter: Python raises
`UnboundLocalError` (a `NameError`) when a local is read before any
assignment, which happens when the creating guard on lines 180–189 was
false. -/
def getMeter (name : String) : Option AverageMeter → Except InferError AverageMeter
  | some m => .ok m
  | none => .error (.nameError name)

/-- The accumulator initialization of `infer` (lines 180–196): `losses` and
`spec_losses` always; `pe_losses` only when `perceptual_loss > 0`;
`mel_losses`, `mcd_metric`, `f0_distortion_metric` and `vuv_error_metric`
only when `n_mels > 0`; `double_mel_losses` additionally requires
`double_mel_loss`; plus the two empty global F0 arrays. -/
def initState (args : Args) : LoopState where
  losses := AverageMeter.empty
  specLosses := AverageMeter.empty
  peLosses := if 0 < args.perceptual_loss then some AverageMeter.empty else none
  melLosses := if 0 < args.n_mels then some AverageMeter.empty else none
  doubleMelLosses :=
    if 0 < args.n_mels ∧ args.double_mel_loss then some AverageMeter.empty else none
  mcdMetric := if 0 < args.n_mels then some AverageMeter.empty else none
  f0Metric := if 0 < args.n_mels then some AverageMeter.empty else none
  vuvMetric := if 0 < args.n_mels then some AverageMeter.empty else none
  f0GtAll := []
  f0SynAll := []

/-- The normalize-inverse stage of the loop (lines 261–263): the prediction
is inverted back to physical units only when `args.normalize` holds AND
`args.stats_file` is truthy (a non-empty string); otherwise it passes
through unchanged. -/
def inverseStage (args : Args) (len : ℕ) (output : List Frame) : List Frame :=
  if args.normalize ∧ args.stats_file ≠ "" then args.specStats.inverse len output
  else output

/-- One iteration of the per-batch loop (lines 200–274): forward pass, clone
of the pre-normalization target, optional normalization of the targets,
masked losses, loss-meter updates, conditional inverse transform of the
prediction, metric computations against the cloned original target, global
F0-array concatenation, and the three unguarded metric-meter updates. -/
def processBatch (args : Args) (O : Oracles) (crit : MaskedLoss)
    (st : LoopState) (b : Batch) : Except InferError LoopState :=
  let output := O.fwd b
  let output_mel := O.fwdMel b
  let spec_origin := b.spec
  let spec := if args.normalize then args.specStats.normalize b.length b.spec else b.spec
  let mel := if args.normalize then args.melStats.normalize b.length b.mel else b.mel
  let spec_loss := O.loss crit output spec b.length
  let mel_loss := if 0 < args.n_mels then O.loss crit output_mel mel b.length else 0
  let final_loss := mel_loss + spec_loss
  let losses := st.losses.update final_loss b.batchSize
  let spec_losses := st.specLosses.update spec_loss b.batchSize
  let melStep : Except InferError (Option AverageMeter) :=
    if 0 < args.n_mels then
      match st.melLosses with
      | none => .error (.nameError "mel_losses")
      | some mm => .ok (some (mm.update mel_loss b.batchSize))
    else .ok st.melLosses
  match melStep with
  | .error e => .error e
  | .ok mel_losses =>
    let output := inverseStage args b.length output
    let mcdPair := O.melcd output spec_origin b.length
    let f0 := O.f0metrics output spec_origin b.length
    match st.mcdMetric with
    | none => .error (.nameError "mcd_metric")
    | some mcdM =>
      match st.f0Metric with
      | none => .error (.nameError "f0_distortion_metric")
      | some f0M =>
        match st.vuvMetric with
        | none => .error (.nameError "vuv_error_metric")
        | some vuvM =>
          .ok { losses := losses
              , specLosses := spec_losses
              , peLosses := st.peLosses
              , melLosses := mel_losses
              , doubleMelLosses := st.doubleMelLosses
              , mcdMetric := some (mcdM.update mcdPair.1 mcdPair.2)
              , f0Metric := some (f0M.update f0.dist f0.voiced)
              , vuvMetric := some (vuvM.update f0.vuv f0.frames)
              , f0GtAll := st.f0GtAll ++ f0.gt
              , f0SynAll := st.f0SynAll ++ f0.syn }

/-- The strictly sequential batch loop (line 200): fold `processBatch` over
the test set in order, stopping at the first raised error. -/
def runLoop (args : Args) (O : Oracles) (crit : MaskedLoss) (st : LoopState) :
    List Batch → Except InferError LoopState
  | [] => .ok st
  | b :: bs =>
    match processBatch args O crit st b with
    | .error e => .error e
    | .ok st2 => runLoop args O crit st2 bs

/-- The values printed by the final report (lines 291–303). -/
structure FinalReport where
  specLoss : ℚ
  melLoss : Option ℚ
  mcd : ℚ
  f0Rmse : ℝ
  vuvPct : ℚ
  f0Corr : ℚ
  elapsed : ℚ

/-- The aggregation and final report of `infer` (lines 289–303): the averaged
spec loss; the averaged mel loss when `n_mels > 0`; the global F0 Pearson
correlation over the concatenated arrays; then the unguarded reads of
`mcd_metric`, `f0_distortion_metric` and `vuv_error_metric`, reported as the
MCD average, `sqrt` of the F0-distortion average, and the VUV average times
100, together with the elapsed wall time. -/
noncomputable def buildReport (pearson : List ℚ → List ℚ → ℚ) (args : Args)
    (elapsed : ℚ) (st : LoopState) : Except InferError FinalReport :=
  let specLoss := st.specLosses.avg
  let melStep : Except InferError (Option ℚ) :=
    if 0 < args.n_mels then
      match st.melLosses with
      | none => .error (.nameError "mel_losses")
      | some m => .ok (some m.avg)
    else .ok none
  match melStep with
  | .error e => .error e
  | .ok melLoss =>
    let f0Corr := pearson st.f0GtAll st.f0SynAll
    match st.mcdMetric with
    | none => .error (.nameError "mcd_metric")
    | some mcdM =>
      match st.f0Metric with
      | none => .error (.nameError "f0_distortion_metric")
      | some f0M =>
        match st.vuvMetric with
        | none => .error (.nameError "vuv_error_metric")
        | some vuvM =>
          .ok { specLoss := specLoss, melLoss := melLoss, mcd := mcdM.avg
              , f0Rmse := Real.sqrt (f0M.avg : ℝ), vuvPct := vuvM.avg * 100
              , f0Corr := f0Corr, elapsed := elapsed }

/-- The fallible stages of `infer` up to the end of the batch loop: model
construction dispatch, checkpoint loading, criterion selection, then the
sequential loop from the freshly initialized accumulators. -/
def inferCore (O : Oracles) (args : Args) (ckpt : List (String × Shape))
    (batches : List Batch) : Except InferError (CheckpointReport × LoopState) :=
  match prepareModel args.model_type with
  | .error e => .error e
  | .ok m =>
    match loadCheckpoint (O.modelDict m) ckpt with
    | .error e => .error e
    | .ok ck =>
      match criterionOf args.loss with
      | .error e => .error e
      | .ok crit =>
        match runLoop args O crit (initState args) batches with
        | .error e => .error e
        | .ok st => .ok (ck, st)

/-- The whole `infer` pipeline: the setup and loop stages followed by the
final aggregation report. -/
noncomputable def infer (O : Oracles) (args : Args) (ckpt : List (String × Shape))
    (batches : List Batch) (elapsed : ℚ) :
    Except InferError (CheckpointReport × FinalReport) :=
  match inferCore O args ckpt batches with
  | .error e => .error e
  | .ok (ck, st) =>
    match buildReport O.pearson args elapsed st with
    | .error e => .error e
    | .ok rep => .ok (ck, rep)

/-- A sample configuration used for concrete evaluations: normalization
enabled but with an empty (falsy) statistics-file path. -/
def argsNoStats : Args where
  model_type := "LSTM"
  loss := "l1"
  n_mels := 1
  normalize := true
  stats_file := ""
  stats_mel_file := ""
  double_mel_loss := false
  perceptual_loss := 0
  specStats := ⟨[1], [2]⟩
  melStats := ⟨[0], [1]⟩

/-- The same sample configuration with a truthy statistics-file path. -/
def argsWithStats : Args :=
  { argsNoStats with stats_file := "stats.npz", stats_mel_file := "stats_mel.npz" }

/-- The sample configuration with an unsupported loss tag. -/
def argsBadLoss : Args := { argsNoStats with loss := "huber" }

/-- The sample configuration with the mel branch disabled. -/
def argsMelZero : Args := { argsNoStats with n_mels := 0 }

/-- Concrete stand-ins for the external collaborators, used to evaluate the
pipeline at sample inputs. -/
def oracle0 : Oracles where
  modelDict := fun _ => []
  fwd := fun _ => [[3]]
  fwdMel := fun _ => [[1]]
  loss := fun _ p t _ => (p.headD []).headD 0 - (t.headD []).headD 0
  melcd := fun p _ _ => ((p.headD []).headD 0, 1)
  f0metrics := fun p t _ => ⟨(p.headD []).headD 0, 1, (t.headD []).headD 0, 1, [5], [6]⟩
  pearson := fun _ _ => 0

/-- A concrete one-frame batch. -/
def batch0 : Batch where
  batchSize := 1
  spec := [[9]]
  mel := [[4]]
  length := 1

/-- Claim C8: an unsupported loss tag makes `infer` raise
`ValueError("Not Support Loss Type")` for every batch list — before any batch
is processed — while `l1` and `mse` construct the corresponding `MaskedLoss`
criterion.  (The earlier model-construction and checkpoint stages are assumed
to succeed; they run first in the source.) -/
theorem infer_invalid_loss_valueError (O : Oracles) (args : Args)
    (ckpt : List (String × Shape)) (m : ModelArch) (ck : CheckpointReport)
    (hm : prepareModel args.model_type = .ok m)
    (hc : loadCheckpoint (O.modelDict m) ckpt = .ok ck)
    (hl1 : args.loss ≠ "l1") (hl2 : args.loss ≠ "mse") :
    (criterionOf "l1" = .ok ⟨"l1"⟩ ∧ criterionOf "mse" = .ok ⟨"mse"⟩) ∧
    ∀ batches elapsed, infer O args ckpt batches elapsed =
      .error (.valueError "Not Support Loss Type") := by
  refine ⟨⟨rfl, rfl⟩, ?_⟩
  intro batches elapsed
  simp [infer, inferCore, hm, hc, criterionOf, hl1, hl2]

/-- Claim C8 witness: the unsupported tag `huber` aborts a concrete run. -/
theorem infer_invalid_loss_valueError_witness :
    (prepareModel argsBadLoss.model_type = .ok .lstm ∧
      loadCheckpoint (oracle0.modelDict .lstm) [] = .ok ⟨0, 0, []⟩ ∧
      argsBadLoss.loss ≠ "l1" ∧ argsBadLoss.loss ≠ "mse") ∧
    ((criterionOf "l1" = .ok ⟨"l1"⟩ ∧ criterionOf "mse" = .ok ⟨"mse"⟩) ∧
      ∀ batches elapsed, infer oracle0 argsBadLoss [] batches elapsed =
        .error (.valueError "Not Support Loss Type")) :=
  ⟨⟨rfl, rfl, by decide, by decide⟩,
    infer_invalid_loss_valueError oracle0 argsBadLoss [] .lstm ⟨0, 0, []⟩
      rfl rfl (by decide) (by decide)⟩

/-- Claim C3 failing configuration: with `n_mels = 0` the run never reaches a
final report at all.  The accumulators `mcd_metric`, `f0_distortion_metric`
and `vuv_error_metric` are only created when `n_mels > 0` (lines 184–189) but
are updated and read unconditionally (lines 272–274 and 300–302), so every
run with `n_mels = 0` aborts with an `UnboundLocalError` on `mcd_metric` —
it cannot report the same spec loss and MCD as the `n_mels > 0` run. -/
theorem infer_n_mels_zero_unboundLocal (O : Oracles) (args : Args)
    (ckpt : List (String × Shape)) (m : ModelArch) (ck : CheckpointReport)
    (crit : MaskedLoss)
    (hm : prepareModel args.model_type = .ok m)
    (hc : loadCheckpoint (O.modelDict m) ckpt = .ok ck)
    (hcr : criterionOf args.loss = .ok crit)
    (h0 : args.n_mels = 0) :
    ∀ batches elapsed, infer O args ckpt batches elapsed =
      .error (.nameError "mcd_metric") := by
  intro batches elapsed
  cases batches with
  | nil => simp [infer, inferCore, hm, hc, hcr, runLoop, buildReport, initState, h0]
  | cons b bs => simp [infer, inferCore, hm, hc, hcr, runLoop, processBatch, initState, h0]

/-- Claim C3 witness: a concrete `n_mels = 0` run aborts. -/
theorem infer_n_mels_zero_unboundLocal_witness :
    (prepareModel argsMelZero.model_type = .ok .lstm ∧
      loadCheckpoint (oracle0.modelDict .lstm) [] = .ok ⟨0, 0, []⟩ ∧
      criterionOf argsMelZero.loss = .ok ⟨"l1"⟩ ∧ argsMelZero.n_mels = 0) ∧
    ∀ batches elapsed, infer oracle0 argsMelZero [] batches elapsed =
      .error (.nameError "mcd_metric") :=
  ⟨⟨rfl, rfl, rfl, rfl⟩,
    infer_n_mels_zero_unboundLocal oracle0 argsMelZero [] .lstm ⟨0, 0, []⟩ ⟨"l1"⟩
      rfl rfl rfl rfl⟩

/-- Claim C4 counterexample: with normalization enabled (`normalize = true`)
but an empty `stats_file`, the inverse stage does NOT invert the prediction
back to physical units before metric computation: it passes the prediction
through unchanged, so the claim "when normalization is enabled the prediction
is inverted" fails at this concrete input. -/
theorem inverseStage_normalize_without_stats_not_inverted :
    argsNoStats.normalize = true ∧
    inverseStage argsNoStats 1 [[3]] ≠ argsNoStats.specStats.inverse 1 [[3]] := by
  refine ⟨rfl, ?_⟩
  have h1 : inverseStage argsNoStats 1 [[3]] = [[3]] := by
    simp [inverseStage, argsNoStats]
  have h2 : argsNoStats.specStats.inverse 1 [[3]] = [[7]] := by
    simp [argsNoStats, GlobalMVN.inverse, GlobalMVN.invFrame]
    norm_num
  rw [h1, h2]
  simp

/-- Claim C4 (amended): in every loop iteration the target spectrogram is
kept un-normalized for the metrics (the pre-normalization clone `spec_origin`
is what both metric computations receive), and when normalization is enabled
AND a statistics file is configured (`stats_file` non-empty), the prediction
handed to the metrics is the inverse-transformed one, while the loss is
computed against the normalized target. -/
theorem processBatch_metrics_inverted_and_origin (args : Args) (O : Oracles)
    (crit : MaskedLoss) (b : Batch)
    (h1 : args.normalize = true) (h2 : args.stats_file ≠ "") (h3 : 0 < args.n_mels) :
    ∃ st, processBatch args O crit (initState args) b = .ok st ∧
      st.specLosses = AverageMeter.empty.update
        (O.loss crit (O.fwd b) (args.specStats.normalize b.length b.spec) b.length)
        b.batchSize ∧
      st.mcdMetric = some (AverageMeter.empty.update
        (O.melcd (args.specStats.inverse b.length (O.fwd b)) b.spec b.length).1
        (O.melcd (args.specStats.inverse b.length (O.fwd b)) b.spec b.length).2) ∧
      st.f0Metric = some (AverageMeter.empty.update
        (O.f0metrics (args.specStats.inverse b.length (O.fwd b)) b.spec b.length).dist
        (O.f0metrics (args.specStats.inverse b.length (O.fwd b)) b.spec b.length).voiced) ∧
      st.vuvMetric = some (AverageMeter.empty.update
        (O.f0metrics (args.specStats.inverse b.length (O.fwd b)) b.spec b.length).vuv
        (O.f0metrics (args.specStats.inverse b.length (O.fwd b)) b.spec b.length).frames) := by
  simp [processBatch, inverseStage, initState, h1, h2, h3]

/-- Claim C4 witness: the amended statement at a concrete configuration with
a configured statistics file. -/
theorem processBatch_metrics_inverted_and_origin_witness :
    (argsWithStats.normalize = true ∧ argsWithStats.stats_file ≠ "" ∧
      0 < argsWithStats.n_mels) ∧
    (∃ st, processBatch argsWithStats oracle0 ⟨"l1"⟩ (initState argsWithStats) batch0 =
        .ok st ∧
      st.specLosses = AverageMeter.empty.update
        (oracle0.loss ⟨"l1"⟩ (oracle0.fwd batch0)
          (argsWithStats.specStats.normalize batch0.length batch0.spec) batch0.length)
        batch0.batchSize ∧
      st.mcdMetric = some (AverageMeter.empty.update
        (oracle0.melcd (argsWithStats.specStats.inverse batch0.length (oracle0.fwd batch0))
          batch0.spec batch0.length).1
        (oracle0.melcd (argsWithStats.specStats.inverse batch0.length (oracle0.fwd batch0))
          batch0.spec batch0.length).2) ∧
      st.f0Metric = some (AverageMeter.empty.update
        (oracle0.f0metrics (argsWithStats.specStats.inverse batch0.length (oracle0.fwd batch0))
          batch0.spec batch0.length).dist
        (oracle0.f0metrics (argsWithStats.specStats.inverse batch0.length (oracle0.fwd batch0))
          batch0.spec batch0.length).voiced) ∧
      st.vuvMetric = some (AverageMeter.empty.update
        (oracle0.f0metrics (argsWithStats.specStats.inverse batch0.length (oracle0.fwd batch0))
          batch0.spec batch0.length).vuv
        (oracle0.f0metrics (argsWithStats.specStats.inverse batch0.length (oracle0.fwd batch0))
          batch0.spec batch0.length).frames)) :=
  ⟨⟨rfl, by decide, by decide⟩,
    processBatch_metrics_inverted_and_origin argsWithStats oracle0 ⟨"l1"⟩ batch0
      rfl (by decide) (by decide)⟩

/-- Claim C9: when `normalize` is true but `stats_file` is empty (falsy), the
loop still normalizes the spectrogram and mel targets before the loss
computation, but skips the inverse transform of the prediction, so the MCD
and F0/VUV metrics receive the raw (normalized-domain) prediction together
with the un-normalized original target spectrogram. -/
theorem processBatch_normalize_without_stats_file (args : Args) (O : Oracles)
    (crit : MaskedLoss) (b : Batch)
    (h1 : args.normalize = true) (h2 : args.stats_file = "") (h3 : 0 < args.n_mels) :
    ∃ st, processBatch args O crit (initState args) b = .ok st ∧
      st.specLosses = AverageMeter.empty.update
        (O.loss crit (O.fwd b) (args.specStats.normalize b.length b.spec) b.length)
        b.batchSize ∧
      st.melLosses = some (AverageMeter.empty.update
        (O.loss crit (O.fwdMel b) (args.melStats.normalize b.length b.mel) b.length)
        b.batchSize) ∧
      st.mcdMetric = some (AverageMeter.empty.update
        (O.melcd (O.fwd b) b.spec b.length).1
        (O.melcd (O.fwd b) b.spec b.length).2) ∧
      st.f0Metric = some (AverageMeter.empty.update
        (O.f0metrics (O.fwd b) b.spec b.length).dist
        (O.f0metrics (O.fwd b) b.spec b.length).voiced) ∧
      st.vuvMetric = some (AverageMeter.empty.update
        (O.f0metrics (O.fwd b) b.spec b.length).vuv
        (O.f0metrics (O.fwd b) b.spec b.length).frames) := by
  simp [processBatch, inverseStage, initState, h1, h2, h3]

/-- Claim C9 witness: the normalized-but-not-inverted behaviour at a concrete
configuration with an empty statistics-file path. -/
theorem processBatch_normalize_without_stats_file_witness :
    (argsNoStats.normalize = true ∧ argsNoStats.stats_file = "" ∧
      0 < argsNoStats.n_mels) ∧
    (∃ st, processBatch argsNoStats oracle0 ⟨"l1"⟩ (initState argsNoStats) batch0 =
        .ok st ∧
      st.specLosses = AverageMeter.empty.update
        (oracle0.loss ⟨"l1"⟩ (oracle0.fwd batch0)
          (argsNoStats.specStats.normalize batch0.length batch0.spec) batch0.length)
        batch0.batchSize ∧
      st.melLosses = some (AverageMeter.empty.update
        (oracle0.loss ⟨"l1"⟩ (oracle0.fwdMel batch0)
          (argsNoStats.melStats.normalize batch0.length batch0.mel) batch0.length)
        batch0.batchSize) ∧
      st.mcdMetric = some (AverageMeter.empty.update
        (oracle0.melcd (oracle0.fwd batch0) batch0.spec batch0.length).1
        (oracle0.melcd (oracle0.fwd batch0) batch0.spec batch0.length).2) ∧
      st.f0Metric = some (AverageMeter.empty.update
        (oracle0.f0metrics (oracle0.fwd batch0) batch0.spec batch0.length).dist
        (oracle0.f0metrics (oracle0.fwd batch0) batch0.spec batch0.length).voiced) ∧
      st.vuvMetric = some (AverageMeter.empty.update
        (oracle0.f0metrics (oracle0.fwd batch0) batch0.spec batch0.length).vuv
        (oracle0.f0metrics (oracle0.fwd batch0) batch0.spec batch0.length).frames)) :=
  ⟨⟨rfl, rfl, by decide⟩,
    processBatch_normalize_without_stats_file argsNoStats oracle0 ⟨"l1"⟩ batch0
      rfl rfl (by decide)⟩

/-- The spec-loss value of one batch (line 248): the criterion applied to the
prediction and the (optionally normalized) target spectrogram. -/
def specLossVal (args : Args) (O : Oracles) (crit : MaskedLoss) (b : Batch) : ℚ :=
  O.loss crit (O.fwd b)
    (if args.normalize then args.specStats.normalize b.length b.spec else b.spec) b.length

/-- The mel-loss value of one batch (line 250), for `n_mels > 0`. -/
def melLossVal (args : Args) (O : Oracles) (crit : MaskedLoss) (b : Batch) : ℚ :=
  O.loss crit (O.fwdMel b)
    (if args.normalize then args.melStats.normalize b.length b.mel else b.mel) b.length

/-- The prediction handed to the metrics engine: the forward output after the
conditional inverse stage. -/
def metricInput (args : Args) (O : Oracles) (b : Batch) : List Frame :=
  inverseStage args b.length (O.fwd b)

/-- The per-batch MCD value and its valid-frame weight (line 266). -/
def mcdVal (args : Args) (O : Oracles) (b : Batch) : ℚ × ℚ :=
  O.melcd (metricInput args O b) b.spec b.length

/-- The per-batch F0/VUV metric outputs (lines 267–268). -/
def f0Val (args : Args) (O : Oracles) (b : Batch) : F0Out :=
  O.f0metrics (metricInput args O b) b.spec b.length

theorem processBatch_ok_closed (args : Args) (O : Oracles) (crit : MaskedLoss)
    (h3 : 0 < args.n_mels) (l s m1 m2 m3 m4 : AverageMeter)
    (pe dm : Option AverageMeter) (gt syn : List ℚ) (b : Batch) :
    processBatch args O crit ⟨l, s, pe, some m1, dm, some m2, some m3, some m4, gt, syn⟩ b =
      .ok ⟨l.update (melLossVal args O crit b + specLossVal args O crit b) b.batchSize,
           s.update (specLossVal args O crit b) b.batchSize,
           pe,
           some (m1.update (melLossVal args O crit b) b.batchSize),
           dm,
           some (m2.update (mcdVal args O b).1 (mcdVal args O b).2),
           some (m3.update (f0Val args O b).dist (f0Val args O b).voiced),
           some (m4.update (f0Val args O b).vuv (f0Val args O b).frames),
           gt ++ (f0Val args O b).gt,
           syn ++ (f0Val args O b).syn⟩ := by
  simp [processBatch, specLossVal, melLossVal, mcdVal, f0Val, metricInput, h3]

theorem runLoop_closed (args : Args) (O : Oracles) (crit : MaskedLoss)
    (h3 : 0 < args.n_mels) (batches : List Batch) :
    ∀ (l s m1 m2 m3 m4 : AverageMeter) (pe dm : Option AverageMeter) (gt syn : List ℚ),
    runLoop args O crit ⟨l, s, pe, some m1, dm, some m2, some m3, some m4, gt, syn⟩ batches =
      .ok ⟨l.updates (batches.map fun b =>
             (melLossVal args O crit b + specLossVal args O crit b, b.batchSize)),
           s.updates (batches.map fun b => (specLossVal args O crit b, b.batchSize)),
           pe,
           some (m1.updates (batches.map fun b => (melLossVal args O crit b, b.batchSize))),
           dm,
           some (m2.updates (batches.map fun b => mcdVal args O b)),
           some (m3.updates (batches.map fun b =>
             ((f0Val args O b).dist, (f0Val args O b).voiced))),
           some (m4.updates (batches.map fun b =>
             ((f0Val args O b).vuv, (f0Val args O b).frames))),
           gt ++ (batches.map fun b => (f0Val args O b).gt).flatten,
           syn ++ (batches.map fun b => (f0Val args O b).syn).flatten⟩ := by
  induction batches with
  | nil =>
      intro l s m1 m2 m3 m4 pe dm gt syn
      simp [runLoop, AverageMeter.updates]
  | cons b bs ih =>
      intro l s m1 m2 m3 m4 pe dm gt syn
      simp only [runLoop, processBatch_ok_closed args O crit h3]
      rw [ih]
      simp [AverageMeter.updates_cons, List.append_assoc]

/-- Claim C6: after all batches are consumed, the final report carries the
averaged spec loss, the (present, because `n_mels > 0`) averaged mel loss,
the frame-weighted average MCD, the F0 RMSE computed as the square root of
the voiced-frame-weighted mean of the per-batch squared F0 error, the VUV
error rate as the frame-weighted average multiplied by 100, one global
Pearson F0 correlation over the concatenation of all per-batch ground-truth
and synthesized F0 arrays of the whole test set, and the elapsed wall
time. -/
theorem infer_final_report (O : Oracles) (args : Args) (ckpt : List (String × Shape))
    (m : ModelArch) (ck : CheckpointReport) (crit : MaskedLoss)
    (hm : prepareModel args.model_type = .ok m)
    (hc : loadCheckpoint (O.modelDict m) ckpt = .ok ck)
    (hcr : criterionOf args.loss = .ok crit)
    (h3 : 0 < args.n_mels) (batches : List Batch) (elapsed : ℚ) :
    infer O args ckpt batches elapsed = .ok (ck,
      { specLoss := weightedMean (batches.map fun b =>
          (specLossVal args O crit b, b.batchSize))
      , melLoss := some (weightedMean (batches.map fun b =>
          (melLossVal args O crit b, b.batchSize)))
      , mcd := weightedMean (batches.map fun b => mcdVal args O b)
      , f0Rmse := Real.sqrt ((weightedMean (batches.map fun b =>
          ((f0Val args O b).dist, (f0Val args O b).voiced)) : ℚ) : ℝ)
      , vuvPct := weightedMean (batches.map fun b =>
          ((f0Val args O b).vuv, (f0Val args O b).frames)) * 100
      , f0Corr := O.pearson ((batches.map fun b => (f0Val args O b).gt).flatten)
          ((batches.map fun b => (f0Val args O b).syn).flatten)
      , elapsed := elapsed }) := by
  have hinit : initState args =
      ⟨AverageMeter.empty, AverageMeter.empty,
        (if 0 < args.perceptual_loss then some AverageMeter.empty else none),
        some AverageMeter.empty,
        (if 0 < args.n_mels ∧ args.double_mel_loss then some AverageMeter.empty else none),
        some AverageMeter.empty, some AverageMeter.empty, some AverageMeter.empty,
        [], []⟩ := by
    simp [initState, h3]
  simp only [infer, inferCore, hm, hc, hcr, hinit,
    runLoop_closed args O crit h3 batches]
  simp [buildReport, h3, AverageMeter.avg_updates_empty]

/-- Claim C6 witness: the final report at a concrete one-batch run. -/
theorem infer_final_report_witness :
    (prepareModel argsWithStats.model_type = .ok .lstm ∧
      loadCheckpoint (oracle0.modelDict .lstm) [] = .ok ⟨0, 0, []⟩ ∧
      criterionOf argsWithStats.loss = .ok ⟨"l1"⟩ ∧ 0 < argsWithStats.n_mels) ∧
    infer oracle0 argsWithStats [] [batch0] 7 = .ok (⟨0, 0, []⟩,
      { specLoss := weightedMean ([batch0].map fun b =>
          (specLossVal argsWithStats oracle0 ⟨"l1"⟩ b, b.batchSize))
      , melLoss := some (weightedMean ([batch0].map fun b =>
          (melLossVal argsWithStats oracle0 ⟨"l1"⟩ b, b.batchSize)))
      , mcd := weightedMean ([batch0].map fun b => mcdVal argsWithStats oracle0 b)
      , f0Rmse := Real.sqrt ((weightedMean ([batch0].map fun b =>
          ((f0Val argsWithStats oracle0 b).dist, (f0Val argsWithStats oracle0 b).voiced)) : ℚ) : ℝ)
      , vuvPct := weightedMean ([batch0].map fun b =>
          ((f0Val argsWithStats oracle0 b).vuv, (f0Val argsWithStats oracle0 b).frames)) * 100
      , f0Corr := oracle0.pearson
          (([batch0].map fun b => (f0Val argsWithStats oracle0 b).gt).flatten)
          (([batch0].map fun b => (f0Val argsWithStats oracle0 b).syn).flatten)
      , elapsed := 7 }) :=
  ⟨⟨rfl, rfl, rfl, by decide⟩,
    infer_final_report oracle0 argsWithStats [] .lstm ⟨0, 0, []⟩ ⟨"l1"⟩
      rfl rfl rfl (by decide) [batch0] 7⟩

end SVSInfer
